import Mathlib

/-!
Verification of the session-reconstruction and friction-classification core
of the intent-telemetry intelligence service.

The Python sources under `src/intent-telemetry-sdk/intelligence/src` are
shallowly embedded here:

* `src/models/event.py`      → `EventType`, `EventContext`, `EventData`,
                               `TelemetryEvent`
* `src/models/session.py`    → `FrictionPattern`, `IntentHypothesis`,
                               `InsightSummary`
* `src/analysis/session_reconstructor.py` → `ReconstructedSession`,
                               `mkReconstructedSession`, `Sessions`,
                               `addEvent`, `add_events`, `get_session`,
                               `get_all_sessions`, `get_session_count`
* `src/analysis/friction_classifier.py`   → the four `detect_*` rules and
                               `analyze_session`
* `src/analysis/intent_inferrer.py`       → `infer_intent`,
                               `prepare_event_summary_lines`
* `src/analysis/insight_generator.py`     → `generate_recommendations`,
                               `calculate_confidence`, `generate_insights`

Python floats are modelled as `ℚ`, `datetime` instants as `ℤ` (epoch
milliseconds), and the open `data : Dict[str, Any]` mapping as a record of
`Option` fields covering exactly the keys the analysis code reads
(`d.get(key, default)` becomes `Option.getD`).  Fallible Python code is
embedded in `Except String`.
-/

/-- The event type enumeration of `src/models/event.py` (`EventType`). -/
inductive EventType
  | sessionStart
  | sessionResume
  | sessionPause
  | sessionEnd
  | viewTransition
  | navigationBack
  | navigationForward
  | actionClick
  | actionSubmit
  | actionFocus
  | actionInput
  | performanceLoad
  | performanceLatency
  | frictionRapidClick
  | frictionNavigationReversal
  | frictionError
  | frictionFormAbandonment
  deriving DecidableEq

/-- The wire value of each `EventType` member (`use_enum_values`). -/
def EventType.value : EventType → String
  | .sessionStart => "session.start"
  | .sessionResume => "session.resume"
  | .sessionPause => "session.pause"
  | .sessionEnd => "session.end"
  | .viewTransition => "view.transition"
  | .navigationBack => "navigation.back"
  | .navigationForward => "navigation.forward"
  | .actionClick => "action.click"
  | .actionSubmit => "action.submit"
  | .actionFocus => "action.focus"
  | .actionInput => "action.input"
  | .performanceLoad => "performance.load"
  | .performanceLatency => "performance.latency"
  | .frictionRapidClick => "friction.rapid_click"
  | .frictionNavigationReversal => "friction.navigation_reversal"
  | .frictionError => "friction.error"
  | .frictionFormAbandonment => "friction.form_abandonment"

/-- Viewport dimensions (`Viewport` in `src/models/event.py`). -/
structure Viewport where
  width : Int
  height : Int
  deriving DecidableEq

/-- Device information (`DeviceInfo` in `src/models/event.py`). -/
structure DeviceInfo where
  type : String
  touchEnabled : Bool
  deriving DecidableEq

/-- Event context (`EventContext` in `src/models/event.py`). -/
structure EventContext where
  url : Option String := none
  pageTitle : Option String := none
  viewport : Viewport := ⟨0, 0⟩
  device : DeviceInfo := ⟨"desktop", false⟩
  userAgent : Option String := none
  deriving DecidableEq

/-- The open `data : Dict[str, Any]` payload of a telemetry event,
restricted to the keys the analysis code reads.  A key absent from the
Python dict is `none`; `d.get(k, default)` is `Option.getD`. -/
structure EventData where
  loadTime : Option ℚ := none
  latency : Option ℚ := none
  operation : Option String := none
  clickCount : Option ℚ := none
  target : Option String := none
  timeOnPage : Option ℚ := none
  fieldsCompleted : Option ℚ := none
  totalFields : Option ℚ := none
  errorType : Option String := none
  deriving DecidableEq

/-- One telemetry event (`TelemetryEvent` in `src/models/event.py`).
Timestamps are epoch milliseconds. -/
structure TelemetryEvent where
  schemaVersion : String := "1.0"
  type : EventType
  eventId : String
  sessionId : String
  timestamp : Int
  sequenceNumber : Int
  context : EventContext := {}
  data : EventData := {}
  deriving DecidableEq

/-- The sort key relation used by `ReconstructedSession.__init__`:
`sorted(events, key=lambda e: e.sequenceNumber)`. -/
def seqLe (a b : TelemetryEvent) : Prop :=
  a.sequenceNumber ≤ b.sequenceNumber

instance : DecidableRel seqLe := fun a b =>
  inferInstanceAs (Decidable (a.sequenceNumber ≤ b.sequenceNumber))

instance : IsTotal TelemetryEvent seqLe :=
  ⟨fun a b => Int.le_total a.sequenceNumber b.sequenceNumber⟩

instance : IsTrans TelemetryEvent seqLe :=
  ⟨fun _ _ _ h h' => le_trans h h'⟩

/-- A reconstructed session (`ReconstructedSession` in
`src/analysis/session_reconstructor.py`).  These four fields are exactly
the attributes its `__init__` assigns; the class has no others. -/
structure ReconstructedSession where
  session_id : String
  events : List TelemetryEvent
  start_time : Int
  end_time : Option Int
  deriving DecidableEq

/-- Embeds `ReconstructedSession.__init__(session_id, events)`.  `now` models
`datetime.now()`, used as the start time of an empty session.  Note the
source computes `start_time`/`end_time` from the *unsorted* constructor
argument (`events[0]` / `events[-1]`), while `self.events` receives the
sorted copy. -/
def mkReconstructedSession (now : Int) (session_id : String)
    (events : List TelemetryEvent) : ReconstructedSession where
  session_id := session_id
  events := List.insertionSort seqLe events
  start_time :=
    match events.head? with
    | some e => e.timestamp
    | none => now
  end_time :=
    match events.getLast? with
    | some e => some e.timestamp
    | none => none

/-- Embeds `ReconstructedSession.get_events_by_type`. -/
def ReconstructedSession.get_events_by_type (s : ReconstructedSession)
    (t : EventType) : List TelemetryEvent :=
  s.events.filter (fun e => e.type = t)

/-- Embeds `ReconstructedSession.get_duration_ms`. -/
def ReconstructedSession.get_duration_ms (s : ReconstructedSession) : Int :=
  match s.end_time with
  | none => 0
  | some e => e - s.start_time

/-- Embeds `ReconstructedSession.get_page_views`. -/
def ReconstructedSession.get_page_views (s : ReconstructedSession) : Nat :=
  (s.get_events_by_type .viewTransition).length

/-- Embeds `ReconstructedSession.get_interactions`. -/
def ReconstructedSession.get_interactions (s : ReconstructedSession) : Nat :=
  (s.get_events_by_type .actionClick).length
    + (s.get_events_by_type .actionSubmit).length
    + (s.get_events_by_type .actionInput).length

/-- Embeds `ReconstructedSession.get_friction_events`. -/
def ReconstructedSession.get_friction_events (s : ReconstructedSession) :
    List TelemetryEvent :=
  s.events.filter (fun e =>
    e.type = .frictionRapidClick ∨ e.type = .frictionNavigationReversal
      ∨ e.type = .frictionError ∨ e.type = .frictionFormAbandonment)

/-- One entry of `ReconstructedSession.get_event_sequence`: the dict
`{type, timestamp, sequence, data, context: {url, pageTitle}}` (the
nested context dict is flattened into two fields). -/
structure SimplifiedEvent where
  type : String
  timestamp : Int
  sequence : Int
  data : EventData
  url : Option String
  pageTitle : Option String
  deriving DecidableEq

/-- Embeds `ReconstructedSession.get_event_sequence`. -/
def ReconstructedSession.get_event_sequence (s : ReconstructedSession) :
    List SimplifiedEvent :=
  s.events.map fun e =>
    { type := e.type.value
      timestamp := e.timestamp
      sequence := e.sequenceNumber
      data := e.data
      url := e.context.url
      pageTitle := e.context.pageTitle }

/-- The `SessionReconstructor.sessions` buffer: a Python dict from session
id to event list, modelled as an insertion-ordered association list with
distinct keys. -/
abbrev Sessions := List (String × List TelemetryEvent)

/-- One iteration of the `add_events` loop: append `e` to the entry for
`e.sessionId`, creating the entry (at the end, as dict insertion does) if
absent. -/
def addEvent (s : Sessions) (e : TelemetryEvent) : Sessions :=
  match s with
  | [] => [(e.sessionId, [e])]
  | (k, vs) :: rest =>
      if k = e.sessionId then (k, vs ++ [e]) :: rest
      else (k, vs) :: addEvent rest e

/-- Embeds `SessionReconstructor.add_events`. -/
def add_events (s : Sessions) (events : List TelemetryEvent) : Sessions :=
  events.foldl addEvent s

/-- Embeds `self.sessions.get(session_id, [])`. -/
def sessionsGet (s : Sessions) (id : String) : List TelemetryEvent :=
  match s with
  | [] => []
  | (k, vs) :: rest => if k = id then vs else sessionsGet rest id

/-- Embeds `session_id in self.sessions`. -/
def hasKey (s : Sessions) (id : String) : Bool :=
  match s with
  | [] => false
  | (k, _) :: rest => k = id || hasKey rest id

/-- Embeds `SessionReconstructor.get_session`, in state-passing form: the second
component is the buffer after the call (`dict.get` does not mutate). -/
def get_session (now : Int) (s : Sessions) (session_id : String) :
    ReconstructedSession × Sessions :=
  (mkReconstructedSession now session_id (sessionsGet s session_id), s)

/-- Embeds `SessionReconstructor.get_all_sessions`, in state-passing form. -/
def get_all_sessions (now : Int) (s : Sessions) :
    List ReconstructedSession × Sessions :=
  (s.map (fun p => mkReconstructedSession now p.1 p.2), s)

/-- Embeds `SessionReconstructor.get_session_count`, in state-passing form. -/
def get_session_count (s : Sessions) : Nat × Sessions :=
  (s.length, s)

/-- A detected friction pattern (`FrictionPattern` in
`src/models/session.py`). -/
structure FrictionPattern where
  pattern_type : String
  severity : ℚ
  timestamp : Int
  description : String
  event_id : String
  deriving DecidableEq

/-- A user intent hypothesis (`IntentHypothesis` in
`src/models/session.py`).  The pydantic model requires `timestamp`; it is
`Option` here because the fallback branch of
`InsightGenerator.generate_insights` constructs a hypothesis without one. -/
structure IntentHypothesis where
  hypothesis : String
  confidence : ℚ
  supporting_evidence : List String
  timestamp : Option Int := none
  deriving DecidableEq

/-- The final aggregate (`InsightSummary` in `src/models/session.py`). -/
structure InsightSummary where
  session_id : String
  timestamp : Int
  intent_hypotheses : List IntentHypothesis
  friction_patterns : List FrictionPattern
  recommendations : List String
  confidence_score : ℚ
  deriving DecidableEq

/-- The slow-page-load loop of
`FrictionClassifier._detect_performance_degradation` (the part iterating
`PERFORMANCE_LOAD` events). -/
def performanceLoadFindings (session : ReconstructedSession) :
    List FrictionPattern :=
  (session.get_events_by_type .performanceLoad).filterMap fun event =>
    let load_time := event.data.loadTime.getD 0
    if 3000 < load_time then
      some
        { pattern_type := "performance_degradation"
          severity := min 1 (load_time / 10000)
          timestamp := event.timestamp
          description := "Slow page load detected: " ++ toString load_time ++ "ms"
          event_id := event.eventId }
    else none

/-- The high-latency loop of
`FrictionClassifier._detect_performance_degradation` (the part iterating
`PERFORMANCE_LATENCY` events; every such event yields a finding). -/
def performanceLatencyFindings (session : ReconstructedSession) :
    List FrictionPattern :=
  (session.get_events_by_type .performanceLatency).map fun event =>
    let latency := event.data.latency.getD 0
    let operation := event.data.operation.getD "unknown"
    { pattern_type := "performance_degradation"
      severity := min 1 (latency / 5000)
      timestamp := event.timestamp
      description := "High latency for " ++ operation ++ ": " ++ toString latency ++ "ms"
      event_id := event.eventId }

/-- Embeds `FrictionClassifier._detect_performance_degradation`. -/
def detect_performance_degradation (session : ReconstructedSession) :
    List FrictionPattern :=
  performanceLoadFindings session ++ performanceLatencyFindings session

/-- Embeds `FrictionClassifier._detect_affordance_confusion`. -/
def detect_affordance_confusion (session : ReconstructedSession) :
    List FrictionPattern :=
  ((session.get_events_by_type .frictionRapidClick).map fun event =>
    let click_count := event.data.clickCount.getD 0
    let target := event.data.target.getD "unknown"
    { pattern_type := "affordance_confusion"
      severity := min 1 (click_count / 10)
      timestamp := event.timestamp
      description := "Rapid clicking on '" ++ target
        ++ "' suggests unclear affordance or missing feedback"
      event_id := event.eventId })
  ++ ((session.get_events_by_type .frictionNavigationReversal).filterMap
    fun event =>
      let time_on_page := event.data.timeOnPage.getD 0
      if time_on_page < 2000 then
        some
          { pattern_type := "affordance_confusion"
            severity := 7 / 10
            timestamp := event.timestamp
            description :=
              "Quick navigation reversal suggests user didn't find expected content"
            event_id := event.eventId }
      else none)

/-- Embeds `FrictionClassifier._detect_cognitive_overload`. -/
def detect_cognitive_overload (session : ReconstructedSession) :
    List FrictionPattern :=
  (session.get_events_by_type .frictionFormAbandonment).map fun event =>
    let fields_completed := event.data.fieldsCompleted.getD 0
    let total_fields := event.data.totalFields.getD 1
    let completion_rate :=
      if 0 < total_fields then fields_completed / total_fields else 0
    { pattern_type := "cognitive_overload"
      severity := 1 - completion_rate
      timestamp := event.timestamp
      description := "Form abandoned after completing "
        ++ toString fields_completed ++ "/" ++ toString total_fields ++ " fields"
      event_id := event.eventId }

/-- The friction finding appended by
`FrictionClassifier._detect_expectation_mismatch` when the session has at
least three navigation reversals, anchored to `reversals[-1]`. -/
def reversalMismatchPattern (count : Nat) (last : TelemetryEvent) :
    FrictionPattern where
  pattern_type := "expectation_mismatch"
  severity := 6 / 10
  timestamp := last.timestamp
  description := "Multiple navigation reversals (" ++ toString count
    ++ ") suggest unmet expectations"
  event_id := last.eventId

/-- Embeds `FrictionClassifier._detect_expectation_mismatch`. -/
def detect_expectation_mismatch (session : ReconstructedSession) :
    List FrictionPattern :=
  ((session.get_events_by_type .frictionError).map fun event =>
    let error_type := event.data.errorType.getD "unknown"
    { pattern_type := "expectation_mismatch"
      severity := 8 / 10
      timestamp := event.timestamp
      description := "Error encountered: " ++ error_type
      event_id := event.eventId })
  ++ (let reversals := session.get_events_by_type .frictionNavigationReversal
      match reversals.getLast? with
      | some last =>
          if 3 ≤ reversals.length then [reversalMismatchPattern reversals.length last]
          else []
      | none => [])

/-- Embeds `FrictionClassifier.analyze_session` (the returned pattern list; the
appended cumulative history is the same list). -/
def analyze_session (session : ReconstructedSession) : List FrictionPattern :=
  detect_performance_degradation session
    ++ detect_affordance_confusion session
    ++ detect_cognitive_overload session
    ++ detect_expectation_mismatch session

/-- Helper `leadsChars n l` decides whether `n` is an initial segment of `l`. -/
def leadsChars : List Char → List Char → Bool
  | [], _ => true
  | _ :: _, [] => false
  | a :: as, b :: bs => a == b && leadsChars as bs

/-- Python's `needle in haystack` on strings, over char lists. -/
def containsChars : List Char → List Char → Bool
  | [], needle => needle.isEmpty
  | c :: rest, needle => leadsChars needle (c :: rest) || containsChars rest needle

/-- Python's `needle in haystack` substring test. -/
def strContains (haystack needle : String) : Bool :=
  containsChars haystack.data needle.data

/-- Python's `str.lower` (ASCII). -/
def pyLower (s : String) : String :=
  ⟨s.data.map Char.toLower⟩

/-- One step of Python's `str.title` over chars: uppercase a letter that
does not follow a letter, lowercase one that does. -/
def pyTitleChars : Bool → List Char → List Char
  | _, [] => []
  | prevAlpha, c :: cs =>
      if c.isAlpha then
        (if prevAlpha then c.toLower else c.toUpper) :: pyTitleChars true cs
      else c :: pyTitleChars false cs

/-- Python's `str.title` (ASCII). -/
def pyTitle (s : String) : String :=
  ⟨pyTitleChars false s.data⟩

/-- Python's `str.replace` over chars, fuel-recursive (the fuel is the
haystack length, which always suffices; an empty needle is returned
unchanged — that edge case never occurs in the embedded code). -/
def pyReplaceChars (needle repl : List Char) : Nat → List Char → List Char
  | _, [] => []
  | 0, l => l
  | fuel + 1, c :: rest =>
      if leadsChars needle (c :: rest) && !needle.isEmpty then
        repl ++ pyReplaceChars needle repl fuel (List.drop (needle.length - 1) rest)
      else c :: pyReplaceChars needle repl fuel rest

/-- Python's `str.replace(needle, repl)` (all occurrences). -/
def pyReplace (s needle repl : String) : String :=
  ⟨pyReplaceChars needle.data repl.data s.data.length s.data⟩

/-- Renders a possibly-absent page title the way the Python f-strings do:
the `context` dict always carries the `pageTitle` key, so
`.get("pageTitle", ...)` returns its value even when that value is `None`,
which an f-string prints as `"None"`. -/
def renderTitle : Option String → String
  | some t => t
  | none => "None"

/-- Embeds `IntentInferrer._prepare_event_summary`, as its list of lines (the
Python function returns them joined with newlines).  Note the source takes
`sequence[:20]` — the *first* twenty entries of the ordered sequence. -/
def prepare_event_summary_lines (session : ReconstructedSession) :
    List String :=
  let sequence := session.get_event_sequence
  let entries := (sequence.take 20).enum.map fun p =>
    toString (p.1 + 1) ++ ". " ++ pyTitle (pyReplace p.2.type "_" " ")
      ++ " - " ++ renderTitle p.2.pageTitle
  if 20 < sequence.length then
    entries ++ ["... and " ++ toString (sequence.length - 20) ++ " more events"]
  else entries

/-- Embeds `IntentInferrer._prepare_event_summary` (joined). -/
def prepare_event_summary (session : ReconstructedSession) : String :=
  String.intercalate "\n" (prepare_event_summary_lines session)

/-- Embeds `IntentInferrer._prepare_friction_summary`, as its list of lines. -/
def prepare_friction_summary_lines (patterns : List FrictionPattern) :
    List String :=
  if patterns.isEmpty then ["No friction detected"]
  else patterns.enum.map fun p =>
    let severity_label : String :=
      if 7 / 10 < p.2.severity then "High"
      else if 4 / 10 < p.2.severity then "Medium"
      else "Low"
    toString (p.1 + 1) ++ ". [" ++ severity_label ++ "] "
      ++ p.2.pattern_type ++ ": " ++ p.2.description

/-- One hypothesis of the parsed LLM JSON response
(`result["hypotheses"]` entries in `IntentInferrer.infer_intent`). -/
structure RawHypothesis where
  intent : String
  confidence : ℚ
  evidence : List String
  deriving DecidableEq

/-- Outcome of the external LLM round trip inside the `try` block of
`IntentInferrer.infer_intent`.  An unconfigured or dummy API key is a
`failure`: the `client` property raises `ValueError` inside the `try`. -/
inductive LLMOutcome
  | response (hypotheses : List RawHypothesis)
  | failure (message : String)
  deriving DecidableEq

/-- Embeds `IntentInferrer.infer_intent`.  Every exception of the `try` block —
including the `ValueError` for a missing/dummy API key — is caught by the
function's own `except`, which substitutes a single hypothesis with
confidence `0.0`; the function itself never raises. -/
def infer_intent (outcome : LLMOutcome) (session : ReconstructedSession)
    (_friction_patterns : List FrictionPattern) : List IntentHypothesis :=
  match outcome with
  | .response hypotheses =>
      hypotheses.map fun h =>
        { hypothesis := h.intent
          confidence := h.confidence
          supporting_evidence := h.evidence
          timestamp := some (session.end_time.getD session.start_time) }
  | .failure _ =>
      [{ hypothesis := "Unable to determine intent (analysis error)"
         confidence := 0
         supporting_evidence := ["Error during analysis"]
         timestamp := some (session.end_time.getD session.start_time) }]

/-- The fixed recommendation strings of
`InsightGenerator._generate_recommendations`. -/
def criticalPerfRec : String :=
  "🚀 Critical: Optimize page load performance and reduce interaction latency"

/-- The non-critical performance recommendation. -/
def monitorPerfRec : String :=
  "⚡ Monitor and improve performance metrics for better user experience"

/-- The affordance-confusion recommendation. -/
def affordanceRec : String :=
  "🎯 Improve visual feedback for interactive elements (consider: loading states, hover effects, click acknowledgment)"

/-- The cognitive-overload recommendation. -/
def cognitiveRec : String :=
  "🧠 Simplify forms and reduce cognitive load (consider: progressive disclosure, better labels, inline validation)"

/-- The expectation-mismatch recommendation. -/
def expectationRec : String :=
  "✨ Align UI behavior with user expectations (consider: clearer error messages, better navigation cues)"

/-- The smooth-session recommendation. -/
def smoothRec : String :=
  "✅ Session appears smooth with no major friction detected"

/-- The high-friction recommendation. -/
def highFrictionRec : String :=
  "⚠️ High friction detected across multiple areas - prioritize UX improvements"

/-- The struggling-user recommendation text built for one qualifying
intent hypothesis. -/
def strugglingRec (h : IntentHypothesis) : String :=
  "🎓 User appears to be struggling with: "
    ++ pyReplace (pyLower h.hypothesis) "user " ""

/-- The performance block of `_generate_recommendations`: present iff the
grouped dict has a `performance_degradation` entry; the group (in arrival
order, as dict grouping preserves it) decides critical vs monitor via its
mean severity. -/
def perfRecs (friction_patterns : List FrictionPattern) : List String :=
  let group := friction_patterns.filter
    (fun p => p.pattern_type = "performance_degradation")
  if group.isEmpty then []
  else if 7 / 10 < (group.map (·.severity)).sum / group.length then
    [criticalPerfRec]
  else [monitorPerfRec]

/-- The presence-triggered single-recommendation blocks of
`_generate_recommendations` for the other three pattern types. -/
def typeRec (friction_patterns : List FrictionPattern)
    (ptype : String) (rec : String) : List String :=
  if friction_patterns.any (fun p => p.pattern_type = ptype) then [rec]
  else []

/-- The intent-hypothesis loop of `_generate_recommendations`. -/
def intentRecs (intent_hypotheses : List IntentHypothesis) : List String :=
  intent_hypotheses.filterMap fun h =>
    if 7 / 10 < h.confidence
        ∧ (strContains (pyLower h.hypothesis) "abandon"
            ∨ strContains (pyLower h.hypothesis) "unable") then
      some (strugglingRec h)
    else none

/-- The final general block of `_generate_recommendations`
(`if len == 0 … elif len >= 5 …`). -/
def generalRecs (friction_patterns : List FrictionPattern) : List String :=
  if friction_patterns.length = 0 then [smoothRec]
  else if 5 ≤ friction_patterns.length then [highFrictionRec]
  else []

/-- Embeds `InsightGenerator._generate_recommendations`. -/
def generate_recommendations (_session : ReconstructedSession)
    (friction_patterns : List FrictionPattern)
    (intent_hypotheses : List IntentHypothesis) : List String :=
  perfRecs friction_patterns
    ++ typeRec friction_patterns "affordance_confusion" affordanceRec
    ++ typeRec friction_patterns "cognitive_overload" cognitiveRec
    ++ typeRec friction_patterns "expectation_mismatch" expectationRec
    ++ intentRecs intent_hypotheses
    ++ generalRecs friction_patterns

/-- Python's `round(x, 2)` over `ℚ` (round to nearest hundredth). -/
def round2 (q : ℚ) : ℚ :=
  (round (q * 100) : ℤ) / 100

/-- Embeds `InsightGenerator._calculate_confidence`. -/
def calculate_confidence (intent_hypotheses : List IntentHypothesis)
    (friction_patterns : List FrictionPattern) : ℚ :=
  let intent_confidence :=
    match intent_hypotheses with
    | [] => 0
    | h :: t => t.foldl (fun acc x => max acc x.confidence) h.confidence
  let friction_factor := min 1 ((friction_patterns.length : ℚ) / 10)
  round2 (intent_confidence * (7 / 10) + friction_factor * (3 / 10))

/-- Python attribute lookup `session.metrics`, performed by the fallback
branch of `InsightGenerator.generate_insights`.  `ReconstructedSession`
assigns only `session_id`, `events`, `start_time` and `end_time`, so this
lookup raises `AttributeError`. -/
def metricsLookup (_session : ReconstructedSession) : Except String ℚ :=
  .error "AttributeError: 'ReconstructedSession' object has no attribute 'metrics'"

/-- Embeds `InsightGenerator.generate_insights`.  `inferOutcome` is the result of
`await self.intent_inferrer.infer_intent(...)`: `.ok hs` when the
collaborator returned, `.error e` when the awaited call raised (the
`except` handler then runs).  The handler's second evidence f-string
evaluates `session.metrics.get('page_views', 0)`. -/
def generate_insights (inferOutcome : Except String (List IntentHypothesis))
    (session : ReconstructedSession) : Except String InsightSummary := do
  let friction_patterns := analyze_session session
  let intent_hypotheses ←
    match inferOutcome with
    | .ok hs => pure hs
    | .error _ => do
        let page_views ← metricsLookup session
        pure
          [{ hypothesis := "User interacted with the application (AI inference unavailable - OpenAI API key not configured)"
             confidence := 1 / 2
             supporting_evidence :=
               ["Session included " ++ toString session.events.length ++ " events",
                "User visited " ++ toString page_views ++ " pages"] }]
  let recommendations :=
    generate_recommendations session friction_patterns intent_hypotheses
  let confidence_score :=
    calculate_confidence intent_hypotheses friction_patterns
  pure
    { session_id := session.session_id
      timestamp := session.end_time.getD session.start_time
      intent_hypotheses := intent_hypotheses
      friction_patterns := friction_patterns
      recommendations := recommendations
      confidence_score := confidence_score }

/-- The overall confidence formula exactly as the specification words it
(§4.3 step 4): `0.7 * max(hypothesis.confidence over all hypotheses,
default 0.0) + 0.3 * min(1.0, friction_pattern_count / 10)`, rounded to
two decimal places.  Kept separate from `calculate_confidence` (which is
translated from the source) so the two can be compared. -/
def confidence_spec (intent_hypotheses : List IntentHypothesis)
    (friction_patterns : List FrictionPattern) : ℚ :=
  round2 ((7 / 10) * ((intent_hypotheses.map (·.confidence)).max?.getD 0)
    + (3 / 10) * min 1 ((friction_patterns.length : ℚ) / 10))

/-- Well-formedness of one event payload under which the classifier's
severity arithmetic stays inside `[0, 1]`: the unconditionally scaled
numeric fields are non-negative, and a positive field total bounds the
completed-field count.  Missing fields (`none`) satisfy all three
conditions via their defaults. -/
def dataOK (d : EventData) : Prop :=
  0 ≤ d.latency.getD 0 ∧ 0 ≤ d.clickCount.getD 0 ∧
    (0 < d.totalFields.getD 1 →
      0 ≤ d.fieldsCompleted.getD 0 ∧ d.fieldsCompleted.getD 0 ≤ d.totalFields.getD 1)

instance (d : EventData) : Decidable (dataOK d) := by
  unfold dataOK
  infer_instance

/-- Builder for sample telemetry events used in concrete instances. -/
def sampleEvent (ty : EventType) (id : String) (seq ts : Int)
    (d : EventData := {}) : TelemetryEvent where
  type := ty
  eventId := id
  sessionId := "s1"
  timestamp := ts
  sequenceNumber := seq
  data := d

/-- Sample event with sequence number 1, timestamp 100. -/
def c1EventA : TelemetryEvent := sampleEvent .viewTransition "e1" 1 100

/-- Sample event with sequence number 2, timestamp 200. -/
def c1EventB : TelemetryEvent := sampleEvent .viewTransition "e2" 2 200

/-- A session whose events were inserted in reverse sequence order. -/
def c1Session : ReconstructedSession :=
  mkReconstructedSession 0 "s1" [c1EventB, c1EventA]

/-- An empty session. -/
def blankSession : ReconstructedSession := mkReconstructedSession 0 "s1" []

/-- A latency event with a negative `latency` value. -/
def c3LatencyEvent : TelemetryEvent :=
  sampleEvent .performanceLatency "L1" 1 10 { latency := some (-5000) }

/-- A session containing only `c3LatencyEvent`. -/
def c3BadSession : ReconstructedSession :=
  mkReconstructedSession 0 "s1" [c3LatencyEvent]

/-- A session exercising every rule, with several missing numeric fields
(empty payloads default to 0, or 1 for `totalFields`). -/
def c3GoodSession : ReconstructedSession :=
  mkReconstructedSession 0 "s1"
    [sampleEvent .performanceLoad "g1" 1 10 { loadTime := some 12000 },
     sampleEvent .performanceLatency "g2" 2 20 {},
     sampleEvent .frictionRapidClick "g3" 3 30 { clickCount := some 25 },
     sampleEvent .frictionNavigationReversal "g4" 4 40 {},
     sampleEvent .frictionFormAbandonment "g5" 5 50 {},
     sampleEvent .frictionError "g6" 6 60 {},
     sampleEvent .frictionNavigationReversal "g7" 7 70 { timeOnPage := some 5000 },
     sampleEvent .frictionNavigationReversal "g8" 8 80
       { timeOnPage := some 100 }]

/-- An intent hypothesis with confidence 0.9. -/
def hyp09 : IntentHypothesis :=
  { hypothesis := "h", confidence := 9 / 10, supporting_evidence := [] }

/-- Four friction patterns. -/
def fourPats : List FrictionPattern :=
  (List.range 4).map fun i =>
    { pattern_type := "x", severity := 1 / 2, timestamp := 0
      description := "", event_id := toString i }

/-- A session with three `performance.load` events whose load times sit
just below, at, and just above the 3000 ms threshold. -/
def c6Session : ReconstructedSession :=
  mkReconstructedSession 0 "s1"
    [sampleEvent .performanceLoad "a1" 1 10 { loadTime := some 2999 },
     sampleEvent .performanceLoad "a2" 2 20 { loadTime := some 3000 },
     sampleEvent .performanceLoad "a3" 3 30 { loadTime := some 3001 }]

/-- The i-th page-view event of the 21-event narrative session. -/
def c8Event (i : Nat) : TelemetryEvent :=
  { type := .viewTransition
    eventId := "v" ++ toString i
    sessionId := "s1"
    timestamp := (i : Int)
    sequenceNumber := (i : Int)
    context := { pageTitle := some ("P" ++ toString i) } }

/-- A session with 21 events, sequence numbers 1 through 21. -/
def c8Session : ReconstructedSession :=
  mkReconstructedSession 0 "s1" ((List.range 21).map fun i => c8Event (i + 1))

/-- A high-confidence hypothesis whose text contains "unable". -/
def hypUnable : IntentHypothesis :=
  { hypothesis := "User unable to find checkout", confidence := 8 / 10
    supporting_evidence := [] }

/-- A sample reconstructor buffer with one known session id. -/
def c10State : Sessions := [("known", [c1EventA])]

/-! ### Helper lemmas -/

/-- A `filterMap` whose function is an if-then-some-else-none is the
corresponding filter followed by a map. -/
theorem filterMap_ite_eq_filter_map {α β : Type} (c : α → Prop)
    [DecidablePred c] (F : α → β) :
    ∀ l : List α,
      (l.filterMap fun a => if c a then some (F a) else none)
        = (l.filter (fun a => c a)).map F := by
  intro l
  induction l with
  | nil => rfl
  | cons a t ih =>
      by_cases h : c a <;>
        simp [List.filterMap_cons, List.filter_cons, h, ih]

/-- The event sequence of a freshly built session is sorted by sequence
number. -/
theorem events_sorted (now : Int) (sid : String)
    (evs : List TelemetryEvent) :
    (mkReconstructedSession now sid evs).events.Sorted seqLe :=
  List.sorted_insertionSort seqLe evs

/-- The event sequence of a freshly built session is a permutation of the
buffered events. -/
theorem events_perm (now : Int) (sid : String)
    (evs : List TelemetryEvent) :
    (mkReconstructedSession now sid evs).events.Perm evs :=
  List.perm_insertionSort seqLe evs

/-- Lemma: `orderedInsert` does not disturb the subsequence of elements holding
any fixed sequence number. -/
theorem filter_orderedInsert_seq (k : Int) (a : TelemetryEvent) :
    ∀ l : List TelemetryEvent,
      (List.orderedInsert seqLe a l).filter (fun e => e.sequenceNumber = k)
        = ((a :: l).filter (fun e => e.sequenceNumber = k)) := by
  intro l
  induction l with
  | nil => rfl
  | cons b t ih =>
      by_cases hab : seqLe a b
      · simp [List.orderedInsert, hab]
      · have hlt : b.sequenceNumber < a.sequenceNumber := by
          simpa [seqLe, not_le] using hab
        by_cases hak : a.sequenceNumber = k
        · have hbk : ¬ b.sequenceNumber = k := by omega
          simp [List.orderedInsert, hab, List.filter_cons, hak, hbk, ih]
        · simp [List.orderedInsert, hab, List.filter_cons, hak, ih]

/-- Insertion sort is stable: it preserves the relative order of elements
sharing a sequence number. -/
theorem filter_insertionSort_seq (k : Int) :
    ∀ l : List TelemetryEvent,
      (List.insertionSort seqLe l).filter (fun e => e.sequenceNumber = k)
        = l.filter (fun e => e.sequenceNumber = k) := by
  intro l
  induction l with
  | nil => rfl
  | cons a t ih =>
      calc (List.insertionSort seqLe (a :: t)).filter
              (fun e => e.sequenceNumber = k)
          = ((a :: List.insertionSort seqLe t).filter
              (fun e => e.sequenceNumber = k)) :=
            filter_orderedInsert_seq k a (List.insertionSort seqLe t)
        _ = (a :: t).filter (fun e => e.sequenceNumber = k) := by
            by_cases hak : a.sequenceNumber = k <;>
              simp [List.filter_cons, hak, ih]

/-- Appending one event extends exactly its own session's buffer. -/
theorem sessionsGet_addEvent (e : TelemetryEvent) (id : String) :
    ∀ s : Sessions,
      sessionsGet (addEvent s e) id
        = sessionsGet s id ++ (if e.sessionId = id then [e] else []) := by
  intro s
  induction s with
  | nil =>
      by_cases h : e.sessionId = id <;> simp [addEvent, sessionsGet, h]
  | cons p rest ih =>
      obtain ⟨k, vs⟩ := p
      by_cases hk : k = e.sessionId
      · by_cases hid : k = id
        · have he : e.sessionId = id := hk.symm.trans hid
          simp [addEvent, sessionsGet, hk, hid, he]
        · have he : ¬ e.sessionId = id := fun h => hid (hk.trans h)
          simp [addEvent, sessionsGet, hk, hid, he]
      · by_cases hid : k = id
        · have he : ¬ e.sessionId = id := fun h => hk (hid.trans h.symm)
          subst hid
          simp [addEvent, sessionsGet, hk, he]
        · simp [addEvent, sessionsGet, hk, hid, ih]

/-- Lemma: `add_events` appends a batch's events for a session id, in batch
order, to that session's buffer. -/
theorem sessionsGet_add_events (id : String) :
    ∀ (evs : List TelemetryEvent) (s : Sessions),
      sessionsGet (add_events s evs) id
        = sessionsGet s id ++ evs.filter (fun e => e.sessionId = id) := by
  intro evs
  induction evs with
  | nil => intro s; simp [add_events]
  | cons e t ih =>
      intro s
      have hstep : add_events s (e :: t) = add_events (addEvent s e) t := rfl
      rw [hstep, ih (addEvent s e), sessionsGet_addEvent]
      by_cases h : e.sessionId = id <;> simp [List.filter_cons, h]

/-- Across any number of `add_events` calls starting from an empty
buffer, a session's buffered events are exactly its events in arrival
order. -/
theorem sessionsGet_batches (id : String) (batches : List (List TelemetryEvent)) :
    sessionsGet (batches.foldl add_events []) id
      = batches.flatten.filter (fun e => e.sessionId = id) := by
  suffices h : ∀ (bs : List (List TelemetryEvent)) (s : Sessions),
      sessionsGet (bs.foldl add_events s) id
        = sessionsGet s id ++ bs.flatten.filter (fun e => e.sessionId = id) by
    simpa [sessionsGet] using h batches []
  intro bs
  induction bs with
  | nil => intro s; simp
  | cons b t ih =>
      intro s
      simp [List.foldl_cons, ih (add_events s b), sessionsGet_add_events,
        List.filter_append]

/-- An id absent from the buffer maps to the empty event list. -/
theorem sessionsGet_of_hasKey_false {id : String} :
    ∀ {s : Sessions}, hasKey s id = false → sessionsGet s id = [] := by
  intro s
  induction s with
  | nil => intro _; rfl
  | cons p rest ih =>
      intro h
      obtain ⟨k, vs⟩ := p
      simp [hasKey] at h
      simp [sessionsGet, h.1, ih h.2]

/-- In a list sorted by sequence number, every element's sequence number
is bounded by that of the last element. -/
theorem seq_le_getLast :
    ∀ {l : List TelemetryEvent}, l.Pairwise seqLe →
      ∀ {last}, l.getLast? = some last → ∀ e ∈ l, seqLe e last := by
  intro l
  induction l with
  | nil => intro _ last h; simp at h
  | cons a t ih =>
      intro hp last hlast e he
      cases t with
      | nil =>
          simp at hlast he
          subst hlast
          subst he
          exact le_refl _
      | cons b t' =>
          have hlast' : (b :: t').getLast? = some last := by
            simpa [List.getLast?_cons_cons] using hlast
          rcases List.mem_cons.1 he with rfl | hmem
          · have hlm : last ∈ b :: t' := List.mem_of_getLast?_eq_some hlast'
            exact (List.pairwise_cons.1 hp).1 last hlm
          · exact ih (List.pairwise_cons.1 hp).2 hlast' e hmem

/-- Every performance finding carries the `performance_degradation` type. -/
theorem pattern_type_performance {s : ReconstructedSession}
    {p : FrictionPattern} (h : p ∈ detect_performance_degradation s) :
    p.pattern_type = "performance_degradation" := by
  rcases List.mem_append.1 h with h | h
  · rcases List.mem_filterMap.1 h with ⟨e, _, he⟩
    by_cases hc : 3000 < e.data.loadTime.getD 0
    · simp [performanceLoadFindings, hc] at he
      exact he ▸ rfl
    · simp [hc] at he
  · rcases List.mem_map.1 h with ⟨e, _, rfl⟩
    rfl

/-- Every affordance finding carries the `affordance_confusion` type. -/
theorem pattern_type_affordance {s : ReconstructedSession}
    {p : FrictionPattern} (h : p ∈ detect_affordance_confusion s) :
    p.pattern_type = "affordance_confusion" := by
  rcases List.mem_append.1 h with h | h
  · rcases List.mem_map.1 h with ⟨e, _, rfl⟩
    rfl
  · rcases List.mem_filterMap.1 h with ⟨e, _, he⟩
    by_cases hc : e.data.timeOnPage.getD 0 < 2000
    · simp [hc] at he
      exact he ▸ rfl
    · simp [hc] at he

/-- Every cognitive finding carries the `cognitive_overload` type. -/
theorem pattern_type_cognitive {s : ReconstructedSession}
    {p : FrictionPattern} (h : p ∈ detect_cognitive_overload s) :
    p.pattern_type = "cognitive_overload" := by
  rcases List.mem_map.1 h with ⟨e, _, rfl⟩
  rfl

/-! ### Claim theorems -/

/-- C1: the claim that a non-empty session's start time is the first
ordered event's timestamp, the end time the last ordered event's, with
start ≤ every timestamp ≤ end regardless of insertion order, fails on the
code: `__init__` reads `events[0]`/`events[-1]` from the unsorted input.
Inserting the sequence-2 event (timestamp 200) before the sequence-1
event (timestamp 100) yields the sorted sequence `[e1, e2]` but start
time 200 and end time 100, and start time ≰ the first event's
timestamp. -/
theorem c1_start_end_times_from_unsorted_input :
    c1Session.events.map TelemetryEvent.eventId = ["e1", "e2"]
      ∧ c1Session.events.head?.map TelemetryEvent.timestamp = some 100
      ∧ c1Session.start_time = 200
      ∧ c1Session.end_time = some 100
      ∧ ¬ c1Session.start_time ≤ c1EventA.timestamp := by
  decide

/-- C2: the claim that a failing Intent Inferrer collaborator always
yields one fallback hypothesis of confidence 0.5 with event/page-view
evidence and never propagates an error fails on the code: when the
awaited `infer_intent` call raises, the handler itself evaluates
`session.metrics`, an attribute `ReconstructedSession` does not define,
so an `AttributeError` propagates to the caller; and when the inferrer is
merely unconfigured (missing API key), its internal handler returns a
hypothesis of confidence 0.0 instead. -/
theorem c2_fallback_path_raises_attribute_error :
    generate_insights (.error "inference failed") blankSession
        = .error "AttributeError: 'ReconstructedSession' object has no attribute 'metrics'"
      ∧ (infer_intent (.failure "Valid OPENAI_API_KEY required for intent inference")
            blankSession []).map (fun h => (h.hypothesis, h.confidence))
        = [("Unable to determine intent (analysis error)", 0)] :=
  ⟨rfl, rfl⟩

/-- C4: for events added for one session id in any insertion order,
possibly across multiple `add_events` calls, the reconstructed session's
event list is sorted ascending by sequence number, is a permutation of
that session's arrivals, and events sharing a sequence number keep their
original arrival order. -/
theorem c4_get_session_sorted_and_stable :
    ∀ (batches : List (List TelemetryEvent)) (sid : String) (now : Int),
      (get_session now (batches.foldl add_events []) sid).1.events.Sorted seqLe
        ∧ (get_session now (batches.foldl add_events []) sid).1.events.Perm
            (batches.flatten.filter (fun e => e.sessionId = sid))
        ∧ ∀ k : Int,
            (get_session now (batches.foldl add_events []) sid).1.events.filter
                (fun e => e.sequenceNumber = k)
              = (batches.flatten.filter (fun e => e.sessionId = sid)).filter
                  (fun e => e.sequenceNumber = k) := by
  intro batches sid now
  have harr := sessionsGet_batches sid batches
  refine ⟨events_sorted now sid _, ?_, ?_⟩
  · have hperm := events_perm now sid (sessionsGet (batches.foldl add_events []) sid)
    simpa [get_session, harr] using hperm
  · intro k
    have hstable :=
      filter_insertionSort_seq k (sessionsGet (batches.foldl add_events []) sid)
    simpa [get_session, mkReconstructedSession, harr] using hstable

/-- C10: the query operations `get_session`, `get_all_sessions` and
`get_session_count` leave the buffered event mapping unchanged, and
`get_session` on an unknown id yields a session with no events without
creating a buffer entry, so the session count is unchanged. -/
theorem c10_queries_leave_buffer_unchanged :
    ∀ (s : Sessions) (sid : String) (now : Int),
      (get_session now s sid).2 = s
        ∧ (get_all_sessions now s).2 = s
        ∧ (get_session_count s).2 = s
        ∧ (get_session_count ((get_session now s sid).2)).1
            = (get_session_count s).1
        ∧ (hasKey s sid = false → (get_session now s sid).1.events = []) := by
  intro s sid now
  refine ⟨rfl, rfl, rfl, rfl, fun h => ?_⟩
  simp [get_session, mkReconstructedSession, sessionsGet_of_hasKey_false h]

/-- Witness for C10 at a concrete buffer and unknown id. -/
theorem c10_witness :
    hasKey c10State "missing" = false
      ∧ (get_session 0 c10State "missing").1.events = [] :=
  ⟨by decide,
    (c10_queries_leave_buffer_unchanged c10State "missing" 0).2.2.2.2 (by decide)⟩

/-- C3 counterexample: the claim that every severity lies in `[0, 1]` for
arbitrary (including negative) numeric inputs is false — a
`performance.latency` event with `latency = -5000` yields a finding with
severity `min(1, -5000/5000) = -1`. -/
theorem c3_counterexample :
    ¬ (∀ p ∈ analyze_session c3BadSession, 0 ≤ p.severity ∧ p.severity ≤ 1) := by
  intro h
  have hm : (analyze_session c3BadSession).map (·.severity) = [-1] := by
    simp [analyze_session, detect_performance_degradation, performanceLoadFindings,
      performanceLatencyFindings, detect_affordance_confusion,
      detect_cognitive_overload, detect_expectation_mismatch,
      mkReconstructedSession, ReconstructedSession.get_events_by_type,
      c3BadSession, c3LatencyEvent, sampleEvent, List.filter, List.filterMap]
  have hall : ∀ q ∈ (analyze_session c3BadSession).map (·.severity),
      0 ≤ q ∧ q ≤ 1 := by
    intro q hq
    rcases List.mem_map.1 hq with ⟨p, hp, rfl⟩
    exact h p hp
  rw [hm] at hall
  have hneg := hall (-1) (by simp)
  linarith [hneg.1]

/-- C3 (amended): every severity produced by every detection rule lies in
`[0.0, 1.0]` provided each event payload is well formed per `dataOK`
(non-negative `latency` and `clickCount`, and `fieldsCompleted` between 0
and `totalFields` whenever the latter is positive); missing numeric
fields default to 0 (or 1 for `totalFields`) and satisfy this, and no
rule can fail on a missing field. -/
theorem c3_severity_within_range :
    ∀ session : ReconstructedSession,
      (∀ e ∈ session.events, dataOK e.data) →
      ∀ p ∈ analyze_session session, 0 ≤ p.severity ∧ p.severity ≤ 1 := by
  intro s hok p hp
  have hmem_events : ∀ {t : EventType} {e : TelemetryEvent},
      e ∈ s.get_events_by_type t → e ∈ s.events := fun h =>
    List.mem_of_mem_filter h
  have hp4 : p ∈ performanceLoadFindings s
      ∨ p ∈ performanceLatencyFindings s
      ∨ p ∈ detect_affordance_confusion s
      ∨ p ∈ detect_cognitive_overload s
      ∨ p ∈ detect_expectation_mismatch s := by
    simpa [analyze_session, detect_performance_degradation, List.mem_append,
      or_assoc] using hp
  rcases hp4 with hp | hp | hp | hp | hp
  · -- slow page loads
    rw [performanceLoadFindings] at hp
    rcases List.mem_filterMap.1 hp with ⟨e, _, heq⟩
    by_cases hc : 3000 < e.data.loadTime.getD 0
    · simp only [hc, if_true, Option.some.injEq] at heq
      rcases heq.symm with rfl
      have h0 : (0 : ℚ) ≤ e.data.loadTime.getD 0 / 10000 :=
        div_nonneg (by linarith) (by norm_num)
      exact ⟨le_min (by norm_num) h0, min_le_left _ _⟩
    · simp [hc] at heq
  · -- high-latency interactions
    rw [performanceLatencyFindings] at hp
    rcases List.mem_map.1 hp with ⟨e, he, heq⟩
    rcases heq.symm with rfl
    have hd := hok e (hmem_events he)
    have h0 : (0 : ℚ) ≤ e.data.latency.getD 0 / 5000 :=
      div_nonneg hd.1 (by norm_num)
    exact ⟨le_min (by norm_num) h0, min_le_left _ _⟩
  · -- affordance confusion
    rw [detect_affordance_confusion] at hp
    rcases List.mem_append.1 hp with hp | hp
    · rcases List.mem_map.1 hp with ⟨e, he, heq⟩
      rcases heq.symm with rfl
      have hd := hok e (hmem_events he)
      have h0 : (0 : ℚ) ≤ e.data.clickCount.getD 0 / 10 :=
        div_nonneg hd.2.1 (by norm_num)
      exact ⟨le_min (by norm_num) h0, min_le_left _ _⟩
    · rcases List.mem_filterMap.1 hp with ⟨e, _, heq⟩
      by_cases hc : e.data.timeOnPage.getD 0 < 2000
      · simp only [hc, if_true, Option.some.injEq] at heq
        rcases heq.symm with rfl
        constructor <;> norm_num
      · simp [hc] at heq
  · -- cognitive overload
    rw [detect_cognitive_overload] at hp
    rcases List.mem_map.1 hp with ⟨e, he, heq⟩
    rcases heq.symm with rfl
    have hd := hok e (hmem_events he)
    by_cases ht : 0 < e.data.totalFields.getD 1
    · have hb := hd.2.2 ht
      have hr0 : (0 : ℚ)
          ≤ e.data.fieldsCompleted.getD 0 / e.data.totalFields.getD 1 :=
        div_nonneg hb.1 (le_of_lt ht)
      have hr1 : e.data.fieldsCompleted.getD 0 / e.data.totalFields.getD 1 ≤ 1 :=
        (div_le_one ht).2 hb.2
      refine ⟨?_, ?_⟩ <;> show _ ≤ _ <;> dsimp only <;> rw [if_pos ht] <;> linarith
    · refine ⟨?_, ?_⟩ <;> show _ ≤ _ <;> dsimp only <;> rw [if_neg ht] <;> norm_num
  · -- expectation mismatch
    rw [detect_expectation_mismatch] at hp
    rcases List.mem_append.1 hp with hp | hp
    · rcases List.mem_map.1 hp with ⟨e, _, heq⟩
      rcases heq.symm with rfl
      constructor <;> norm_num
    · have hp' : p ∈
          (match (s.get_events_by_type EventType.frictionNavigationReversal).getLast? with
            | some last =>
                if 3 ≤ (s.get_events_by_type EventType.frictionNavigationReversal).length then
                  [reversalMismatchPattern
                    (s.get_events_by_type EventType.frictionNavigationReversal).length last]
                else []
            | none => []) := hp
      rcases hr : (s.get_events_by_type EventType.frictionNavigationReversal).getLast?
        with _ | last
      · rw [hr] at hp'
        simp at hp'
      · rw [hr] at hp'
        by_cases hlen :
            3 ≤ (s.get_events_by_type EventType.frictionNavigationReversal).length
        · simp only [hlen, if_true, List.mem_singleton] at hp'
          rcases hp' with rfl
          constructor <;> norm_num [reversalMismatchPattern]
        · simp [hlen] at hp'

/-- Witness for C3 at a session exercising every rule, including events
with missing numeric fields. -/
theorem c3_witness :
    (∀ e ∈ c3GoodSession.events, dataOK e.data)
      ∧ ∀ p ∈ analyze_session c3GoodSession, 0 ≤ p.severity ∧ p.severity ≤ 1 := by
  have hok : ∀ e ∈ c3GoodSession.events, dataOK e.data := by decide
  exact ⟨hok, c3_severity_within_range c3GoodSession hok⟩

/-- C5: for every hypothesis list and pattern list the overall confidence
score equals the spec's formula `round(0.7 * max(confidences, default 0)
+ 0.3 * min(1, count/10), 2)`; in particular one hypothesis of
confidence 0.9 with 4 friction patterns yields 0.75. -/
theorem c5_confidence_matches_spec :
    (∀ (hyps : List IntentHypothesis) (pats : List FrictionPattern),
        calculate_confidence hyps pats = confidence_spec hyps pats)
      ∧ calculate_confidence [hyp09] fourPats = 3 / 4 := by
  constructor
  · intro hyps pats
    cases hyps with
    | nil =>
        simp only [calculate_confidence, confidence_spec, List.map_nil,
          List.max?_nil, Option.getD_none]
        congr 1
        ring
    | cons h t =>
        have hmax : ((h :: t).map (fun x => x.confidence)).max?
            = some (t.foldl (fun acc x => max acc x.confidence) h.confidence) := by
          show some ((t.map (fun x => x.confidence)).foldl max h.confidence) = _
          rw [List.foldl_map]
        simp only [calculate_confidence, confidence_spec, hmax, Option.getD_some]
        congr 1
        ring
  · simp [calculate_confidence, round2, hyp09, fourPats, List.range_succ]
    norm_num [min_def, round_eq]

/-- C6: a `performance.load` event yields a performance-degradation
finding exactly when its `loadTime` strictly exceeds 3000 ms, one finding
per qualifying event anchored to it, with severity
`min(1, loadTime/10000)`; load times 2999 and 3000 yield nothing and 3001
yields one finding of severity 0.3001. -/
theorem c6_load_threshold_strict :
    (∀ session : ReconstructedSession,
        (performanceLoadFindings session).map
            (fun p => (p.pattern_type, p.severity, p.timestamp, p.event_id))
          = ((session.get_events_by_type EventType.performanceLoad).filter
              (fun e => 3000 < e.data.loadTime.getD 0)).map
              (fun e => ("performance_degradation",
                min 1 (e.data.loadTime.getD 0 / 10000), e.timestamp, e.eventId)))
      ∧ (performanceLoadFindings c6Session).map (fun p => (p.severity, p.event_id))
          = [(3001 / 10000, "a3")] := by
  constructor
  · intro s
    rw [performanceLoadFindings]
    generalize s.get_events_by_type EventType.performanceLoad = l
    induction l with
    | nil => rfl
    | cons a t ih =>
        by_cases hc : 3000 < a.data.loadTime.getD 0 <;>
          simp [List.filterMap_cons, List.filter_cons, hc, ih]
  · simp [performanceLoadFindings, c6Session, sampleEvent, mkReconstructedSession,
      ReconstructedSession.get_events_by_type, List.filter, List.filterMap]
    norm_num [min_def]

/-- C7: per session, the classifier emits exactly one expectation-mismatch
finding of fixed severity 0.6 precisely when at least three navigation
reversals are present, anchored to the last reversal of the ordered
sequence — whose sequence number bounds every reversal's — and emits no
such finding below three. -/
theorem c7_repeated_reversal_rule (now : Int) (sid : String)
    (evs : List TelemetryEvent) :
    let session := mkReconstructedSession now sid evs
    let reversals :=
      session.get_events_by_type EventType.frictionNavigationReversal
    ((analyze_session session).filter
        (fun p => p.severity = 6 / 10 ∧ p.pattern_type = "expectation_mismatch")
      = if 3 ≤ reversals.length then
          (reversals.getLast?.map (reversalMismatchPattern reversals.length)).toList
        else [])
      ∧ (reversals.getLast?.map (fun last =>
          reversals.all (fun e => e.sequenceNumber ≤ last.sequenceNumber))).getD true
          = true := by
  intro session reversals
  constructor
  · have hperf : (detect_performance_degradation session).filter
        (fun p => p.severity = 6 / 10 ∧ p.pattern_type = "expectation_mismatch")
          = [] := by
      refine List.filter_eq_nil_iff.2 fun p hp => ?_
      simp [pattern_type_performance hp]
    have haff : (detect_affordance_confusion session).filter
        (fun p => p.severity = 6 / 10 ∧ p.pattern_type = "expectation_mismatch")
          = [] := by
      refine List.filter_eq_nil_iff.2 fun p hp => ?_
      simp [pattern_type_affordance hp]
    have hcog : (detect_cognitive_overload session).filter
        (fun p => p.severity = 6 / 10 ∧ p.pattern_type = "expectation_mismatch")
          = [] := by
      refine List.filter_eq_nil_iff.2 fun p hp => ?_
      simp [pattern_type_cognitive hp]
    have herr : ((session.get_events_by_type .frictionError).map fun event =>
        let error_type := event.data.errorType.getD "unknown"
        ({ pattern_type := "expectation_mismatch"
           severity := 8 / 10
           timestamp := event.timestamp
           description := "Error encountered: " ++ error_type
           event_id := event.eventId } : FrictionPattern)).filter
        (fun p => p.severity = 6 / 10 ∧ p.pattern_type = "expectation_mismatch")
          = [] := by
      refine List.filter_eq_nil_iff.2 fun p hp => ?_
      rcases List.mem_map.1 hp with ⟨e, _, heq⟩
      rcases heq.symm with rfl
      simp only [decide_eq_true_eq]
      intro hfalse
      have h68 : ((6 : ℚ) / 10) = 8 / 10 := (hfalse.1).symm.trans rfl
      norm_num at h68
    have hexp : detect_expectation_mismatch session
        = ((session.get_events_by_type .frictionError).map fun event =>
            let error_type := event.data.errorType.getD "unknown"
            ({ pattern_type := "expectation_mismatch"
               severity := 8 / 10
               timestamp := event.timestamp
               description := "Error encountered: " ++ error_type
               event_id := event.eventId } : FrictionPattern))
          ++ (match reversals.getLast? with
              | some last =>
                  if 3 ≤ reversals.length then
                    [reversalMismatchPattern reversals.length last]
                  else []
              | none => []) := rfl
    rw [analyze_session, List.filter_append, List.filter_append,
      List.filter_append, hperf, haff, hcog, hexp, List.filter_append, herr]
    simp only [List.nil_append]
    rcases hr : reversals.getLast? with _ | last
    · simp
    · by_cases hlen : 3 ≤ reversals.length
      · have h6 : (reversalMismatchPattern reversals.length last).severity = 6 / 10
            ∧ (reversalMismatchPattern reversals.length last).pattern_type
              = "expectation_mismatch" := ⟨rfl, rfl⟩
        simp [hlen, List.filter_cons, h6]
      · simp [hlen]
  · have hsorted : reversals.Pairwise seqLe :=
      (events_sorted now sid evs).filter _
    rcases hr : reversals.getLast? with _ | last
    · rfl
    · simp only [Option.map_some', Option.getD_some]
      refine List.all_eq_true.2 fun e he => ?_
      exact decide_eq_true (seq_le_getLast hsorted hr e he)

/-- C8: the claim that the narrative keeps the 20 most recent entries
fails on the code: `_prepare_event_summary` slices `sequence[:20]`, the
*earliest* twenty entries of the ordered sequence (despite its own
comment "Limit to 20 most recent"); the "+N more" marker is emitted.  On
a 21-event session the narrative lists events 1–20 plus the marker and
omits event 21, the most recent. -/
theorem c8_narrative_keeps_earliest_entries :
    (prepare_event_summary_lines c8Session).length = 21
      ∧ (prepare_event_summary_lines c8Session).head?
          = some "1. View.Transition - P1"
      ∧ (prepare_event_summary_lines c8Session).getLast?
          = some "... and 1 more events"
      ∧ (prepare_event_summary_lines c8Session).all
          (fun line => !(strContains line "P21")) = true := by
  refine ⟨by decide, by decide, by decide, by decide⟩

/-- A struggling-user recommendation never coincides with the smooth or
high-friction recommendation (their first characters differ). -/
theorem strugglingRec_ne_fixed (h : IntentHypothesis) :
    strugglingRec h ≠ smoothRec ∧ strugglingRec h ≠ highFrictionRec := by
  have hhead : ∀ x : String,
      ("🎓 User appears to be struggling with: " ++ x).data.head? = some '🎓' := by
    intro x
    cases x
    rfl
  constructor <;> intro he <;>
  · have h1 : (strugglingRec h).data.head? = some '🎓' :=
      hhead (pyReplace (pyLower h.hypothesis) "user " "")
    rw [he] at h1
    exact absurd h1 (by decide)

/-- Membership in the performance recommendation block. -/
theorem mem_perfRecs {fp : List FrictionPattern} {r : String}
    (h : r ∈ perfRecs fp) : r = criticalPerfRec ∨ r = monitorPerfRec := by
  simp only [perfRecs] at h
  split at h
  · simp at h
  · split at h
    · exact Or.inl (List.mem_singleton.1 h)
    · exact Or.inr (List.mem_singleton.1 h)

/-- Membership in a presence-triggered recommendation block. -/
theorem mem_typeRec {fp : List FrictionPattern} {ptype rec r : String}
    (h : r ∈ typeRec fp ptype rec) : r = rec := by
  rw [typeRec] at h
  split at h
  · exact List.mem_singleton.1 h
  · simp at h

/-- Membership in the intent-hypothesis recommendation block. -/
theorem mem_intentRecs {hyps : List IntentHypothesis} {r : String}
    (h : r ∈ intentRecs hyps) : ∃ x, r = strugglingRec x := by
  rw [intentRecs] at h
  rcases List.mem_filterMap.1 h with ⟨x, _, hx⟩
  split at hx
  · exact ⟨x, (Option.some.inj hx).symm⟩
  · cases hx

/-- Membership in the final general recommendation block. -/
theorem mem_generalRecs {fp : List FrictionPattern} {r : String}
    (h : r ∈ generalRecs fp) :
    (fp.length = 0 ∧ r = smoothRec)
      ∨ (5 ≤ fp.length ∧ fp.length ≠ 0 ∧ r = highFrictionRec) := by
  rw [generalRecs] at h
  split at h
  · rename_i h0
    exact Or.inl ⟨h0, List.mem_singleton.1 h⟩
  · split at h
    · rename_i h0 h5
      exact Or.inr ⟨h5, h0, List.mem_singleton.1 h⟩
    · simp at h

/-- C9 counterexample: the claim that zero friction patterns yield the
smooth-session recommendation "and no others" fails — with zero friction
patterns and an intent hypothesis of confidence 0.8 whose text contains
"unable", the list also contains a struggling-user recommendation. -/
theorem c9_counterexample :
    generate_recommendations blankSession [] [hypUnable] ≠ [smoothRec]
      ∧ smoothRec ∈ generate_recommendations blankSession [] [hypUnable] := by
  have hc : (7 : ℚ) / 10 < 8 / 10
      ∧ (strContains (pyLower "User unable to find checkout") "abandon" = true
          ∨ strContains (pyLower "User unable to find checkout") "unable" = true) :=
    ⟨by norm_num, Or.inr (by decide)⟩
  have hlist : generate_recommendations blankSession [] [hypUnable]
      = [strugglingRec hypUnable, smoothRec] := by
    simp [generate_recommendations, perfRecs, typeRec, intentRecs, generalRecs,
      List.filterMap_cons, hypUnable, strugglingRec] at hc ⊢
    rw [if_pos hc]
    rfl
  constructor
  · rw [hlist]
    simp [(strugglingRec_ne_fixed hypUnable).1]
  · rw [hlist]
    simp

/-- C9 (amended): with zero friction patterns the recommendation list is
exactly the struggling-user recommendations of the qualifying intent
hypotheses followed by the smooth-session recommendation — so the smooth
recommendation is present, no friction-type recommendation is, and smooth
is alone whenever no hypothesis qualifies; with five or more friction
patterns the high-friction recommendation is always included; the smooth
and high-friction recommendations never co-occur. -/
theorem c9_recommendations_amended :
    ∀ (session : ReconstructedSession) (fp : List FrictionPattern)
      (hyps : List IntentHypothesis),
      (fp = [] → generate_recommendations session fp hyps
          = intentRecs hyps ++ [smoothRec])
        ∧ (5 ≤ fp.length →
            highFrictionRec ∈ generate_recommendations session fp hyps)
        ∧ ¬ (smoothRec ∈ generate_recommendations session fp hyps
            ∧ highFrictionRec ∈ generate_recommendations session fp hyps) := by
  intro s fp hyps
  refine ⟨?_, ?_, ?_⟩
  · rintro rfl
    simp [generate_recommendations, perfRecs, typeRec, generalRecs]
  · intro h5
    have h0 : ¬ fp.length = 0 := by omega
    have hg : generalRecs fp = [highFrictionRec] := by
      rw [generalRecs, if_neg h0, if_pos h5]
    rw [generate_recommendations, hg]
    simp
  · rintro ⟨hs, hh⟩
    have hsg : fp.length = 0 := by
      simp only [generate_recommendations, List.mem_append] at hs
      rcases hs with ((((hs | hs) | hs) | hs) | hs) | hs
      · rcases mem_perfRecs hs with h | h <;> exact absurd h (by decide)
      · exact absurd (mem_typeRec hs) (by decide)
      · exact absurd (mem_typeRec hs) (by decide)
      · exact absurd (mem_typeRec hs) (by decide)
      · rcases mem_intentRecs hs with ⟨x, hx⟩
        exact absurd hx.symm (strugglingRec_ne_fixed x).1
      · rcases mem_generalRecs hs with ⟨h0, _⟩ | ⟨_, _, hbad⟩
        · exact h0
        · exact absurd hbad (by decide)
    have hhg : ¬ fp.length = 0 := by
      simp only [generate_recommendations, List.mem_append] at hh
      rcases hh with ((((hh | hh) | hh) | hh) | hh) | hh
      · rcases mem_perfRecs hh with h | h <;> exact absurd h (by decide)
      · exact absurd (mem_typeRec hh) (by decide)
      · exact absurd (mem_typeRec hh) (by decide)
      · exact absurd (mem_typeRec hh) (by decide)
      · rcases mem_intentRecs hh with ⟨x, hx⟩
        exact absurd hx.symm (strugglingRec_ne_fixed x).2
      · rcases mem_generalRecs hh with ⟨_, hbad⟩ | ⟨_, h0, _⟩
        · exact absurd hbad (by decide)
        · exact h0
    exact hhg hsg

/-- Witness for C9 at concrete inputs: the zero-pattern branch with no
hypotheses, and the high-friction branch with eight patterns. -/
theorem c9_witness :
    (([] : List FrictionPattern) = []
        ∧ generate_recommendations blankSession [] [] = intentRecs [] ++ [smoothRec])
      ∧ (5 ≤ (fourPats ++ fourPats).length
        ∧ highFrictionRec ∈
            generate_recommendations blankSession (fourPats ++ fourPats) []) :=
  ⟨⟨rfl, (c9_recommendations_amended blankSession [] []).1 rfl⟩,
   ⟨by decide,
    (c9_recommendations_amended blankSession (fourPats ++ fourPats) []).2.1
      (by decide)⟩⟩
